import Mathlib

/-!
Verification of the BusinessChat auto-reply engine and widget client.

The definitions below are a shallow embedding of:
  * the PL/pgSQL trigger function handle_auto_reply and the trigger
    trigger_auto_reply (supabase/migrations/20250227140544_warm_lodge.sql),
  * the widget client BusinessChatPlugin (src/widget/chat.js),
  * the dashboard send path (src/pages/dashboard/ChatTab.jsx).

Conventions: uuid columns become Nat, timestamptz becomes Nat (the SQL
function now() is a single transaction timestamp, passed in as a clock
value t), nullable text columns become Option String, and SQL text
becomes String.
-/

namespace BusinessChat

/-- Character list of a string, lower-cased character by character.
Models the SQL lower() applied before matching (ASCII behaviour). -/
def lowerChars (s : String) : List Char :=
  s.toList.map Char.toLower

/-- Boolean test that the first list is an initial segment of the second. -/
def leadsWith : List Char → List Char → Bool
  | [], _ => true
  | _ :: _, [] => false
  | a :: as, b :: bs => a == b && leadsWith as bs

/-- Boolean test that the first list occurs contiguously inside the second.
Models the SQL condition position(needle in haystack) > 0: the position
function returns a positive index exactly when the needle occurs, and it
returns 1 on an empty needle, which occursIn reproduces (an empty pattern
occurs in every text, the empty text included). -/
def occursIn : List Char → List Char → Bool
  | p, [] => p.isEmpty
  | p, c :: cs => leadsWith p (c :: cs) || occursIn p cs

theorem leadsWith_iff (p t : List Char) :
    leadsWith p t = true ↔ ∃ u, p ++ u = t := by
  induction p generalizing t with
  | nil => simp [leadsWith]
  | cons a as ih =>
    cases t with
    | nil => simp [leadsWith]
    | cons b bs =>
      simp only [leadsWith, Bool.and_eq_true, beq_iff_eq, ih]
      constructor
      · rintro ⟨rfl, u, rfl⟩
        exact ⟨u, rfl⟩
      · rintro ⟨u, h⟩
        injection h with h1 h2
        exact ⟨h1, u, h2⟩

theorem occursIn_iff (p t : List Char) :
    occursIn p t = true ↔ ∃ s u, s ++ p ++ u = t := by
  induction t with
  | nil =>
    simp only [occursIn, List.isEmpty_iff]
    constructor
    · rintro rfl
      exact ⟨[], [], rfl⟩
    · rintro ⟨s, u, h⟩
      rcases List.append_eq_nil.mp h with ⟨h1, h2⟩
      exact List.append_eq_nil.mp h1 |>.2
  | cons c cs ih =>
    simp only [occursIn, Bool.or_eq_true, leadsWith_iff, ih]
    constructor
    · rintro (⟨u, h⟩ | ⟨s, u, h⟩)
      · exact ⟨[], u, by simpa using h⟩
      · exact ⟨c :: s, u, by simp [h]⟩
    · rintro ⟨s, u, h⟩
      cases s with
      | nil =>
        left
        exact ⟨u, by simpa using h⟩
      | cons d ds =>
        right
        injection h with h1 h2
        exact ⟨ds, u, h2⟩

/-- Whitespace test used by jsTrim (the ASCII whitespace JavaScript
trim removes, as far as these sources use it). -/
def isSpaceChar (c : Char) : Bool :=
  c == ' ' || c == '\t' || c == '\n' || c == '\r'

/-- Executable model of the JavaScript String.prototype.trim used by
the send paths and the identification form: leading and trailing
whitespace removed. -/
def jsTrim (s : String) : String :=
  String.mk (((s.toList.dropWhile isSpaceChar).reverse.dropWhile isSpaceChar).reverse)

/-- Row of the auto_replies table (columns used by the matcher). -/
structure AutoReplyRow where
  id : Nat
  widget_id : Nat
  keyword : String
  response : String
deriving DecidableEq, Repr

/-- Condition of the WHERE clause of the matching SELECT in
handle_auto_reply: position(lower(keyword) in lower(NEW.content)) > 0. -/
def keywordMatches (content : String) (r : AutoReplyRow) : Bool :=
  occursIn (lowerChars r.keyword) (lowerChars content)

/-- Rules passing the containment condition of the WHERE clause. -/
def containmentHits (content : String) (rules : List AutoReplyRow) : List AutoReplyRow :=
  rules.filter (keywordMatches content)

/-- Possible results of the matching SELECT in handle_auto_reply:
SELECT all rules whose keyword occurs in the content, ORDER BY
length(keyword) DESC, LIMIT 1.  The single returned row is some row of
maximal keyword length among the containment hits; the SQL gives no
secondary sort key, so among equal-length ties the database may return
any of them.  matchCandidates is therefore the full set of rows the
query can return. -/
def matchCandidates (content : String) (rules : List AutoReplyRow) : List AutoReplyRow :=
  (containmentHits content rules).filter
    (fun r => (containmentHits content rules).all
      (fun q => q.keyword.length ≤ r.keyword.length))

/-- Row of the chat_messages table. -/
structure ChatMessageRow where
  chat_id : Nat
  widget_id : Nat
  content : String
  sender_type : String
  is_auto_reply : Bool
  auto_reply_keyword : Option String
  created_at : Nat
deriving DecidableEq, Repr

/-- Row of the chats table (columns the core touches). -/
structure ChatRow where
  id : Nat
  widget_id : Nat
  visitor_name : Option String
  visitor_email : Option String
  updated_at : Nat
deriving DecidableEq, Repr

/-- Database state: the three tables the auto-reply path reads or writes. -/
structure DB where
  auto_replies : List AutoReplyRow
  chats : List ChatRow
  chat_messages : List ChatMessageRow
deriving DecidableEq, Repr

/-- Rules scoped to one widget: WHERE widget_id = NEW.widget_id. -/
def scopedRules (db : DB) (wid : Nat) : List AutoReplyRow :=
  db.auto_replies.filter (fun r => r.widget_id == wid)

/-- Guard and SELECT of handle_auto_reply: only a message with
sender_type visitor is processed, and the matching rule (if any) is one
row of matchCandidates over the rules of the widget of the new message.
List.head? stands for the single row the LIMIT 1 query hands back. -/
def selectMatchingReply (db : DB) (new : ChatMessageRow) : Option AutoReplyRow :=
  if new.sender_type = "visitor" then
    (matchCandidates new.content (scopedRules db new.widget_id)).head?
  else none

/-- The reply row handle_auto_reply inserts: same chat and widget as the
triggering message, content from the rule response, sender_type business,
is_auto_reply true, auto_reply_keyword from the rule keyword, created_at
DEFAULT now() (the transaction clock t). -/
def mkAutoReplyMessage (new : ChatMessageRow) (r : AutoReplyRow) (t : Nat) : ChatMessageRow :=
  { chat_id := new.chat_id
    widget_id := new.widget_id
    content := r.response
    sender_type := "business"
    is_auto_reply := true
    auto_reply_keyword := some r.keyword
    created_at := t }

/-- UPDATE chats SET updated_at = now() WHERE id = NEW.chat_id. -/
def touchChat (chats : List ChatRow) (cid t : Nat) : List ChatRow :=
  chats.map (fun c => if c.id == cid then { c with updated_at := t } else c)

/-- One INSERT into chat_messages together with the AFTER INSERT row
trigger trigger_auto_reply.  The trigger also fires on the row the
trigger body itself inserts; that nested firing is modelled one level
deep, which is exhaustive because the synthesized reply always carries
sender_type business, on which the nested selectMatchingReply is proved
to return none (theorem c3_at_most_one_auto_reply_no_cascade). -/
def insertChatMessage (db : DB) (m : ChatMessageRow) (t : Nat) : DB :=
  let db1 : DB := { db with chat_messages := db.chat_messages ++ [m] }
  match selectMatchingReply db1 m with
  | none => db1
  | some r =>
    let reply := mkAutoReplyMessage m r t
    let db2 : DB := { db1 with chat_messages := db1.chat_messages ++ [reply] }
    let db3 : DB :=
      match selectMatchingReply db2 reply with
      | none => db2
      | some r2 =>
        { db2 with chat_messages := db2.chat_messages ++ [mkAutoReplyMessage reply r2 t] }
    { db3 with chats := touchChat db3.chats m.chat_id t }

/-- Read of the rule store performed inside the trigger body, with an
injected availability flag: when the read fails the PL/pgSQL function
raises, since handle_auto_reply contains no EXCEPTION handler. -/
def ruleStoreRead (db : DB) (wid : Nat) (ok : Bool) : Except String (List AutoReplyRow) :=
  if ok then Except.ok (scopedRules db wid) else Except.error "rule store read failed"

/-- Transactional behaviour of the INSERT on chat_messages: the AFTER
INSERT row trigger runs inside the inserting transaction, so an error
raised in the trigger body (here: a failing rule-store read on the
visitor path) aborts the whole transaction and the new row is rolled
back together with it.  An Except.error result is a rejected write: no
row of the attempted insert is persisted. -/
def insertChatMessageTx (db : DB) (m : ChatMessageRow) (t : Nat) (ruleStoreOk : Bool) :
    Except String DB :=
  if m.sender_type = "visitor" then
    match ruleStoreRead db m.widget_id ruleStoreOk with
    | Except.error e => Except.error e
    | Except.ok _ => Except.ok (insertChatMessage db m t)
  else Except.ok (insertChatMessage db m t)

/-- Message built by the widget send path (chat.js sendMessage): the
insert carries sender_type visitor, is_auto_reply false and no
auto_reply_keyword column, hence NULL. -/
def visitorMessage (chatId wid : Nat) (content : String) (t : Nat) : ChatMessageRow :=
  { chat_id := chatId
    widget_id := wid
    content := content
    sender_type := "visitor"
    is_auto_reply := false
    auto_reply_keyword := none
    created_at := t }

/-- Welcome message persisted by chat.js createChat: sender_type
business, is_auto_reply false, no auto_reply_keyword column. -/
def welcomeMessageRow (chatId wid : Nat) (welcome : String) (t : Nat) : ChatMessageRow :=
  { chat_id := chatId
    widget_id := wid
    content := welcome
    sender_type := "business"
    is_auto_reply := false
    auto_reply_keyword := none
    created_at := t }

/-- Message built by the dashboard send path (ChatTab.jsx
handleSendMessage): sender_type business, is_auto_reply false, no
auto_reply_keyword column, content trimmed. -/
def businessMessage (chatId wid : Nat) (content : String) (t : Nat) : ChatMessageRow :=
  { chat_id := chatId
    widget_id := wid
    content := jsTrim content
    sender_type := "business"
    is_auto_reply := false
    auto_reply_keyword := none
    created_at := t }

/-- Data-model invariant of section 3 of the design: auto_reply_keyword
is non-null exactly when is_auto_reply is true. -/
def messageInvariant (m : ChatMessageRow) : Prop :=
  m.auto_reply_keyword ≠ none ↔ m.is_auto_reply = true

/-- Message as the widget client holds it: locally added visitor
messages have no id until the server answers, so id is optional. -/
structure WidgetMessage where
  id : Option Nat
  sender_type : String
  content : String
deriving DecidableEq, Repr

/-- Handler body of chat.js subscribeToMessages on a postgres INSERT
event: the payload row is appended to the local list only when its
sender_type is business and no held message already has its id. -/
def onMessageInsertEvent (messages : List WidgetMessage) (payload : WidgetMessage) :
    List WidgetMessage :=
  if payload.sender_type == "business"
      && !(messages.any (fun m => m.id == payload.id)) then
    messages ++ [payload]
  else
    messages

/-- Row of the widgets table as fetched by the widget client (nullable
branding columns). -/
structure WidgetsRow where
  primary_color : Option String
  header_text : Option String
  welcome_message : Option String
  logo_url : Option String
deriving DecidableEq, Repr

/-- Client-side settings object built by chat.js fetchWidgetSettings. -/
structure WidgetSettings where
  primaryColor : String
  headerText : String
  welcomeMessage : String
  logoUrl : Option String
deriving DecidableEq, Repr

/-- JavaScript a || b on a nullable string: the default replaces both
null and the empty string, the two falsy string values. -/
def jsOr (v : Option String) (d : String) : String :=
  match v with
  | none => d
  | some s => if s = "" then d else s

/-- JavaScript a || null on a nullable string. -/
def jsOrNull (v : Option String) : Option String :=
  match v with
  | none => none
  | some s => if s = "" then none else some s

/-- Settings used by the catch branch of fetchWidgetSettings. -/
def defaultSettings : WidgetSettings :=
  { primaryColor := "#0284c7"
    headerText := "Chat with us"
    welcomeMessage := "Hello! How can we help you today?"
    logoUrl := none }

/-- chat.js fetchWidgetSettings: on a successful row fetch each field is
defaulted individually with ||; on any failure (query error, thrown
error, missing row) the catch branch installs defaultSettings.  The
function is total: no error propagates to the caller, so init continues
and the widget is still created. -/
def fetchWidgetSettings (res : Except String WidgetsRow) : WidgetSettings :=
  match res with
  | Except.error _ => defaultSettings
  | Except.ok d =>
    { primaryColor := jsOr d.primary_color "#0284c7"
      headerText := jsOr d.header_text "Chat with us"
      welcomeMessage := jsOr d.welcome_message "Hello! How can we help you today?"
      logoUrl := jsOrNull d.logo_url }

/-- Session state this.userInfo of the widget client. -/
structure UserInfo where
  name : Option String
  email : Option String
  chatCount : Nat
deriving DecidableEq, Repr

/-- JavaScript falsiness of a nullable string: null and the empty string
are falsy. -/
def jsFalsy (v : Option String) : Bool :=
  match v with
  | none => true
  | some s => s == ""

/-- Session effect of one successful chat.js sendMessage: chatCount is
incremented, then the identification form is shown exactly when the new
count is at least 5 and both name and email are still unset (the code
tests chatCount greater-or-equal 5, not equal 5). Returns the new state
and whether showUserInfoForm was scheduled. -/
def sendMessageSession (u : UserInfo) : UserInfo × Bool :=
  let u2 : UserInfo := { u with chatCount := u.chatCount + 1 }
  (u2, decide (5 ≤ u2.chatCount) && jsFalsy u2.name && jsFalsy u2.email)

/-- Session effect of submitting the identification form
(chat.js showUserInfoForm): the trimmed values are stored only when both
are non-empty, otherwise nothing happens. -/
def submitUserInfo (u : UserInfo) (name email : String) : UserInfo :=
  if jsTrim name = "" ∨ jsTrim email = "" then u
  else { u with name := some (jsTrim name), email := some (jsTrim email) }

/-- Database effect of submitting the identification form: UPDATE chats
SET visitor_name, visitor_email WHERE id = chatId. -/
def updateChatVisitorInfo (chats : List ChatRow) (cid : Nat) (name email : String) :
    List ChatRow :=
  chats.map (fun c =>
    if c.id == cid then { c with visitor_name := some name, visitor_email := some email }
    else c)

/-- Number of times the identification prompt fires over the next n
visitor sends starting from session state u. -/
def promptCount (u : UserInfo) : Nat → Nat
  | 0 => 0
  | n + 1 =>
    (if (sendMessageSession u).2 then 1 else 0) + promptCount (sendMessageSession u).1 n

/-! Concrete fixtures used by counterexamples and witnesses. -/

def ruleHi : AutoReplyRow := { id := 1, widget_id := 1, keyword := "hi", response := "A" }

def ruleHiThere : AutoReplyRow := { id := 2, widget_id := 1, keyword := "hi there", response := "B" }

def emptyKeywordRule : AutoReplyRow := { id := 3, widget_id := 1, keyword := "", response := "E" }

def ruleAb : AutoReplyRow := { id := 4, widget_id := 1, keyword := "ab", response := "X" }

def ruleCd : AutoReplyRow := { id := 5, widget_id := 1, keyword := "cd", response := "Y" }

def hoursRule : AutoReplyRow := { id := 6, widget_id := 1, keyword := "hours", response := "9-5 EST" }

def chat0 : ChatRow :=
  { id := 10, widget_id := 1, visitor_name := none, visitor_email := none, updated_at := 0 }

def db0 : DB := { auto_replies := [hoursRule], chats := [chat0], chat_messages := [] }

def mVisitor : ChatMessageRow := visitorMessage 10 1 "what are your hours?" 3

def dashMessage : ChatMessageRow :=
  { chat_id := 10, widget_id := 1, content := "hello", sender_type := "business",
    is_auto_reply := false, auto_reply_keyword := none, created_at := 4 }

def payloadB : WidgetMessage := { id := some 7, sender_type := "business", content := "hi" }

/-! Helper lemmas. -/

theorem string_toList_eq_nil {s : String} : s.toList = [] ↔ s = "" := by
  constructor
  · intro h
    cases s with
    | mk data =>
      have hd : data = [] := h
      subst hd
      rfl
  · intro h
    subst h
    rfl

theorem mem_matchCandidates {msg : String} {rules : List AutoReplyRow} {r : AutoReplyRow} :
    r ∈ matchCandidates msg rules ↔
      r ∈ rules ∧ keywordMatches msg r = true ∧
        ∀ q ∈ rules, keywordMatches msg q = true →
          q.keyword.length ≤ r.keyword.length := by
  simp only [matchCandidates, containmentHits, List.mem_filter, List.all_eq_true,
    decide_eq_true_eq]
  constructor
  · rintro ⟨⟨h1, h2⟩, h3⟩
    exact ⟨h1, h2, fun q hq hkw => h3 q ⟨hq, hkw⟩⟩
  · rintro ⟨h1, h2, h3⟩
    exact ⟨⟨h1, h2⟩, fun q hq => h3 q hq.1 hq.2⟩

theorem selectMatchingReply_business (db : DB) (m : ChatMessageRow) (r : AutoReplyRow)
    (t : Nat) : selectMatchingReply db (mkAutoReplyMessage m r t) = none := by
  simp [selectMatchingReply, mkAutoReplyMessage]

theorem mem_touchChat {chats : List ChatRow} {cid t : Nat} {c : ChatRow}
    (hc : c ∈ touchChat chats cid t) (hid : c.id = cid) : c.updated_at = t := by
  rcases List.mem_map.mp hc with ⟨c0, _, rfl⟩
  by_cases h : c0.id == cid
  · simp [h]
  · rw [if_neg h] at hid ⊢
    exact absurd (by simp [hid]) h

theorem promptCount_eq_zero_of_named :
    ∀ (k : Nat) (u : UserInfo), jsFalsy u.name = false → promptCount u k = 0 := by
  intro k
  induction k with
  | zero => intro u _; rfl
  | succ n ih =>
    intro u h
    have hstep : (sendMessageSession u).2 = false := by
      simp [sendMessageSession, h]
    have hname : jsFalsy ((sendMessageSession u).1).name = false := by
      simpa [sendMessageSession] using h
    simp [promptCount, hstep, ih _ hname]

/-! Claim theorems. -/

/-- C1 counterexample: the claim states that an empty message text
yields no match for every rule set, but a rule whose keyword is the
empty string matches the empty message, because the SQL position
function returns 1 on an empty needle.  The matcher returns that rule. -/
theorem c1_empty_message_counterexample :
    matchCandidates "" [emptyKeywordRule] = [emptyKeywordRule] := by decide

/-- C1 (amended): match returns a rule r only if the lower-cased keyword
of r occurs as a substring of the lower-cased message; an empty rule set
yields no match; and an empty message text yields no match provided
every keyword of the rule set is non-empty (the data-model invariant,
enforced by the dashboard create path).  Matching is total, so nothing
throws. -/
theorem c1_match_soundness :
    (∀ (msg : String) (rules : List AutoReplyRow) (r : AutoReplyRow),
        r ∈ matchCandidates msg rules →
        ∃ s u, s ++ lowerChars r.keyword ++ u = lowerChars msg) ∧
    (∀ msg : String, matchCandidates msg [] = []) ∧
    (∀ rules : List AutoReplyRow,
        (∀ r ∈ rules, r.keyword ≠ "") → matchCandidates "" rules = []) := by
  refine ⟨?_, ?_, ?_⟩
  · intro msg rules r hr
    have hkw : keywordMatches msg r = true := (mem_matchCandidates.mp hr).2.1
    exact (occursIn_iff _ _).mp hkw
  · intro msg
    rfl
  · intro rules hne
    have hhits : containmentHits "" rules = [] := by
      rw [containmentHits, List.filter_eq_nil_iff]
      intro r hr
      have hlist : r.keyword.toList ≠ [] :=
        fun h => hne r hr (string_toList_eq_nil.mp h)
      simp [keywordMatches, lowerChars, occursIn, List.isEmpty_iff, hlist]
      exact hlist
    rw [matchCandidates, hhits]
    rfl

/-- C1 witness: the soundness half applied to the message What are your
hours? and the hours rule, the empty-rule-set half at a concrete
message, and the amended empty-message half at the hours rule. -/
theorem c1_match_soundness_witness :
    (∃ s u, s ++ lowerChars hoursRule.keyword ++ u = lowerChars "What are your hours?") ∧
    matchCandidates "xyz" [] = [] ∧
    matchCandidates "" [hoursRule] = [] :=
  ⟨c1_match_soundness.1 "What are your hours?" [hoursRule] hoursRule (by decide),
   c1_match_soundness.2.1 "xyz",
   c1_match_soundness.2.2 [hoursRule] (by decide)⟩

/-- C2: every rule the matcher can return has a keyword of maximal
length among all containment matches of the rule set, and on the rules
hi to A and hi there to B with message hi there friend the candidate set
is exactly the hi there rule, so match returns B. -/
theorem c2_longest_keyword_wins :
    (∀ (msg : String) (rules : List AutoReplyRow) (r : AutoReplyRow),
        r ∈ matchCandidates msg rules →
        ∀ q ∈ rules, keywordMatches msg q = true →
          q.keyword.length ≤ r.keyword.length) ∧
    matchCandidates "hi there friend" [ruleHi, ruleHiThere] = [ruleHiThere] := by
  constructor
  · intro msg rules r hr
    exact (mem_matchCandidates.mp hr).2.2
  · decide

/-- C2 witness: the maximality half applied to the concrete example,
instantiated at the competing rule hi. -/
theorem c2_longest_keyword_wins_witness :
    ruleHi.keyword.length ≤ ruleHiThere.keyword.length :=
  c2_longest_keyword_wins.1 "hi there friend" [ruleHi, ruleHiThere] ruleHiThere
    (by decide) ruleHi (by decide) (by decide)

/-- C5 is violated on equal-length ties: for message ab cd against the
rules ab to X and cd to Y, both rules are containment matches of the
same maximal keyword length, so the SQL query ORDER BY length(keyword)
DESC LIMIT 1 may hand back either row; no tie-break key makes the choice
deterministic or stable across invocations. -/
theorem c5_equal_length_tie_two_candidates :
    matchCandidates "ab cd" [ruleAb, ruleCd] = [ruleAb, ruleCd] ∧ ruleAb ≠ ruleCd := by
  decide

/-- C3: one insert of a message m appends either m alone or m followed
by exactly one auto-reply, never more; the trigger body returns no rule
for any message of sender_type business, the synthesized auto-replies
included, so a cascade of auto-replies is impossible; and the insert of
a message whose sender_type is not visitor appends that message alone. -/
theorem c3_at_most_one_auto_reply_no_cascade :
    ∀ (db : DB) (m : ChatMessageRow) (t : Nat),
      ((insertChatMessage db m t).chat_messages = db.chat_messages ++ [m] ∨
        ∃ r : AutoReplyRow,
          (insertChatMessage db m t).chat_messages
            = db.chat_messages ++ [m, mkAutoReplyMessage m r t]) ∧
      (∀ (db2 : DB) (r : AutoReplyRow) (t2 : Nat),
          selectMatchingReply db2 (mkAutoReplyMessage m r t2) = none) ∧
      (m.sender_type ≠ "visitor" →
        (insertChatMessage db m t).chat_messages = db.chat_messages ++ [m]) := by
  intro db m t
  refine ⟨?_, fun db2 r t2 => selectMatchingReply_business db2 m r t2, ?_⟩
  · cases h : selectMatchingReply { db with chat_messages := db.chat_messages ++ [m] } m with
    | none =>
      left
      simp [insertChatMessage, h]
    | some r =>
      right
      exact ⟨r, by simp [insertChatMessage, h, selectMatchingReply_business]⟩
  · intro hm
    have h : selectMatchingReply { db with chat_messages := db.chat_messages ++ [m] } m
        = none := by
      simp [selectMatchingReply, hm]
    simp [insertChatMessage, h]

/-- C3 witness: inserting a business message into db0 appends only that
message, with the non-visitor hypothesis discharged concretely. -/
theorem c3_witness :
    (insertChatMessage db0 dashMessage 4).chat_messages
      = db0.chat_messages ++ [dashMessage] :=
  (c3_at_most_one_auto_reply_no_cascade db0 dashMessage 4).2.2 (by decide)

/-- C4: when the trigger body selects rule r for a visitor message m,
the insert persists exactly the visitor message followed by one new
message in the same chat and widget with sender_type business,
is_auto_reply true, auto_reply_keyword equal to the keyword of r and
content equal to the response of r; and every chat row of the
conversation of m ends with updated_at at least the created_at of the
new message (both are the transaction clock t). -/
theorem c4_auto_reply_dispatch :
    ∀ (db : DB) (m : ChatMessageRow) (t : Nat) (r : AutoReplyRow),
      m.sender_type = "visitor" →
      selectMatchingReply { db with chat_messages := db.chat_messages ++ [m] } m = some r →
      (insertChatMessage db m t).chat_messages
          = db.chat_messages ++ [m, mkAutoReplyMessage m r t] ∧
      (mkAutoReplyMessage m r t).sender_type = "business" ∧
      (mkAutoReplyMessage m r t).is_auto_reply = true ∧
      (mkAutoReplyMessage m r t).auto_reply_keyword = some r.keyword ∧
      (mkAutoReplyMessage m r t).content = r.response ∧
      (mkAutoReplyMessage m r t).chat_id = m.chat_id ∧
      (mkAutoReplyMessage m r t).widget_id = m.widget_id ∧
      (mkAutoReplyMessage m r t).created_at = t ∧
      ∀ c ∈ (insertChatMessage db m t).chats, c.id = m.chat_id →
        (mkAutoReplyMessage m r t).created_at ≤ c.updated_at := by
  intro db m t r _ hsel
  refine ⟨by simp [insertChatMessage, hsel, selectMatchingReply_business],
    rfl, rfl, rfl, rfl, rfl, rfl, rfl, ?_⟩
  intro c hc hid
  have hchats : (insertChatMessage db m t).chats = touchChat db.chats m.chat_id t := by
    simp [insertChatMessage, hsel, selectMatchingReply_business]
  rw [hchats] at hc
  have := mem_touchChat hc hid
  simp [mkAutoReplyMessage, this]

/-- C4 witness: the end-to-end example of the design document, a visitor
message what are your hours? against the rule hours to 9-5 EST. -/
theorem c4_auto_reply_dispatch_witness :
    (insertChatMessage db0 mVisitor 3).chat_messages
        = db0.chat_messages ++ [mVisitor, mkAutoReplyMessage mVisitor hoursRule 3] ∧
    (mkAutoReplyMessage mVisitor hoursRule 3).auto_reply_keyword = some "hours" ∧
    (mkAutoReplyMessage mVisitor hoursRule 3).content = "9-5 EST" :=
  ⟨(c4_auto_reply_dispatch db0 mVisitor 3 hoursRule (by decide) (by decide)).1,
   (c4_auto_reply_dispatch db0 mVisitor 3 hoursRule (by decide) (by decide)).2.2.2.1,
   (c4_auto_reply_dispatch db0 mVisitor 3 hoursRule (by decide) (by decide)).2.2.2.2.1⟩

/-- C6: every message any operation of the system creates, namely the
auto-reply the trigger synthesizes, the visitor message of the widget
send path, the welcome message the widget persists on chat creation and
the business message of the dashboard send path, satisfies the
invariant that auto_reply_keyword is non-null exactly when is_auto_reply
is true. -/
theorem c6_matched_keyword_iff_auto_reply :
    ∀ (m : ChatMessageRow) (r : AutoReplyRow) (cid wid t : Nat) (content welcome : String),
      messageInvariant (mkAutoReplyMessage m r t) ∧
      messageInvariant (visitorMessage cid wid content t) ∧
      messageInvariant (welcomeMessageRow cid wid welcome t) ∧
      messageInvariant (businessMessage cid wid content t) := by
  intro m r cid wid t content welcome
  refine ⟨?_, ?_, ?_, ?_⟩ <;>
    simp [messageInvariant, mkAutoReplyMessage, visitorMessage, welcomeMessageRow,
      businessMessage]

/-- C7 is violated by the trigger architecture: the AFTER INSERT trigger
runs inside the transaction of the visitor-message insert and
handle_auto_reply has no exception handler, so a failing rule-store read
during dispatch aborts the transaction and the visitor message write is
rejected instead of being preserved; no database state in which the
visitor message is persisted results. -/
theorem c7_dispatch_failure_rejects_visitor_write :
    insertChatMessageTx db0 mVisitor 3 false = Except.error "rule store read failed" ∧
    ∀ db2 : DB, insertChatMessageTx db0 mVisitor 3 false ≠ Except.ok db2 := by
  constructor
  · rfl
  · intro db2 h
    rw [show insertChatMessageTx db0 mVisitor 3 false
        = Except.error "rule store read failed" from rfl] at h
    exact Except.noConfusion h

/-- C8 counterexample: starting from a fresh session, six visitor sends
with no form submission fire the identification prompt twice, at the
fifth and the sixth message, because the code tests chatCount
greater-or-equal 5 on every send; the claim says the prompt is triggered
exactly once per session. -/
theorem c8_prompt_counterexample :
    promptCount { name := none, email := none, chatCount := 0 } 6 = 2 := by decide

/-- C8 (amended): the identification prompt fires on every visitor send
whose incremented count is at least 5 while neither name nor email is
captured, not exactly once; submitting the form with non-empty trimmed
name and email stores them in the session and updates the visitor name
and email of the chat row, and afterwards the prompt never fires again
in that session. -/
theorem c8_identification_prompt :
    (∀ u : UserInfo,
        (sendMessageSession u).2 = true ↔
          (5 ≤ u.chatCount + 1 ∧ jsFalsy u.name = true ∧ jsFalsy u.email = true)) ∧
    (∀ (u : UserInfo) (name email : String),
        jsTrim name ≠ "" → jsTrim email ≠ "" →
          (submitUserInfo u name email).name = some (jsTrim name) ∧
          (submitUserInfo u name email).email = some (jsTrim email) ∧
          ∀ k : Nat, promptCount (submitUserInfo u name email) k = 0) ∧
    (∀ (chats : List ChatRow) (cid : Nat) (name email : String) (c : ChatRow),
        c ∈ updateChatVisitorInfo chats cid name email → c.id = cid →
          c.visitor_name = some name ∧ c.visitor_email = some email) := by
  refine ⟨?_, ?_, ?_⟩
  · intro u
    simp [sendMessageSession, Bool.and_eq_true, decide_eq_true_eq, and_assoc]
  · intro u name email h1 h2
    have hcond : ¬(jsTrim name = "" ∨ jsTrim email = "") := by
      intro h
      cases h with
      | inl h => exact h1 h
      | inr h => exact h2 h
    have hsub : submitUserInfo u name email
        = { u with name := some (jsTrim name), email := some (jsTrim email) } := by
      simp [submitUserInfo, hcond]
    refine ⟨by simp [hsub], by simp [hsub], ?_⟩
    intro k
    apply promptCount_eq_zero_of_named
    simp [hsub, jsFalsy, h1]
  · intro chats cid name email c hc hid
    rcases List.mem_map.mp hc with ⟨c0, _, rfl⟩
    by_cases h : c0.id == cid
    · simp [h]
    · rw [if_neg h] at hid ⊢
      exact absurd (by simp [hid]) h

/-- C8 witness: the fifth send of a fresh session fires the prompt; the
form submitted with name Ada and a non-empty email stores both, and four
further sends fire no prompt. -/
theorem c8_identification_prompt_witness :
    (sendMessageSession { name := none, email := none, chatCount := 4 }).2 = true ∧
    (submitUserInfo { name := none, email := none, chatCount := 5 }
        "Ada" "ada@example.com").name = some "Ada" ∧
    promptCount
      (submitUserInfo { name := none, email := none, chatCount := 5 }
        "Ada" "ada@example.com") 4 = 0 :=
  ⟨(c8_identification_prompt.1 { name := none, email := none, chatCount := 4 }).mpr
      (by decide),
   (c8_identification_prompt.2.1 { name := none, email := none, chatCount := 5 }
      "Ada" "ada@example.com" (by decide) (by decide)).1,
   (c8_identification_prompt.2.1 { name := none, email := none, chatCount := 5 }
      "Ada" "ada@example.com" (by decide) (by decide)).2.2 4⟩

/-- C9: the widget subscription handler appends an insert-event payload
only when its sender_type is business and no held message carries its
id; a payload whose sender_type is not business (visitor messages in
particular) is never appended; a payload whose id is already held is
dropped; redelivery of the same payload is absorbed, so each business
message is rendered at most once. -/
theorem c9_subscription_dedup :
    ∀ (msgs : List WidgetMessage) (p : WidgetMessage),
      (p.sender_type ≠ "business" → onMessageInsertEvent msgs p = msgs) ∧
      ((∃ m ∈ msgs, m.id = p.id) → onMessageInsertEvent msgs p = msgs) ∧
      onMessageInsertEvent (onMessageInsertEvent msgs p) p = onMessageInsertEvent msgs p ∧
      (p.sender_type = "business" → (∀ m ∈ msgs, m.id ≠ p.id) →
        onMessageInsertEvent msgs p = msgs ++ [p]) := by
  intro msgs p
  refine ⟨?_, ?_, ?_, ?_⟩
  · intro h
    have hb : (p.sender_type == "business") = false := by
      simpa using h
    simp [onMessageInsertEvent, hb]
  · rintro ⟨m, hm, hid⟩
    have ha : msgs.any (fun m => m.id == p.id) = true :=
      List.any_eq_true.mpr ⟨m, hm, by simp [hid]⟩
    simp [onMessageInsertEvent, ha]
  · by_cases h1 : (p.sender_type == "business") = true
    · by_cases h2 : msgs.any (fun m => m.id == p.id) = true
      · simp [onMessageInsertEvent, h1, h2]
      · simp [onMessageInsertEvent, h1, h2, List.any_append]
    · simp [onMessageInsertEvent, h1]
  · intro h1 h2
    have ha : msgs.any (fun m => m.id == p.id) = false := by
      rw [← Bool.not_eq_true, List.any_eq_true]
      rintro ⟨m, hm, hid⟩
      exact h2 m hm (by simpa using hid)
    simp [onMessageInsertEvent, h1, ha]

/-- C9 witness: a business payload with a fresh id is appended to an
empty local list, with both hypotheses discharged concretely. -/
theorem c9_subscription_dedup_witness :
    onMessageInsertEvent [] payloadB = [payloadB] :=
  (c9_subscription_dedup [] payloadB).2.2.2 (by decide) (by decide)

/-- C10: on any fetch failure fetchWidgetSettings returns (rather than
propagates) the fixed default settings: primary color 0284c7, header
Chat with us, welcome message Hello! How can we help you today?, and a
null logo url; being total, initialization proceeds and the widget is
still created. -/
theorem c10_settings_fetch_failure_defaults :
    ∀ e : String,
      fetchWidgetSettings (Except.error e) = defaultSettings ∧
      defaultSettings.primaryColor = "#0284c7" ∧
      defaultSettings.headerText = "Chat with us" ∧
      defaultSettings.welcomeMessage = "Hello! How can we help you today?" ∧
      defaultSettings.logoUrl = none := by
  intro e
  exact ⟨rfl, rfl, rfl, rfl, rfl⟩

end BusinessChat
